import Mathlib

/-!
Verification of the ResuMatch AI backend core pipeline.

Python strings are modelled as Lean `String`; character-level operations go
through `String.data : List Char`.  Byte buffers are modelled as `List Nat`.
The external model call and the external LaTeX compiler are abstracted as
explicit parameters, so all definitions are executable.
-/

namespace ResuMatch

/-! ## Python string primitives -/

/-- Python `str.strip()` on a character list: drop whitespace at both ends. -/
def pyStripL (l : List Char) : List Char :=
  ((l.dropWhile Char.isWhitespace).reverse.dropWhile Char.isWhitespace).reverse

/-- Python `str.strip()`. -/
def pyStrip (s : String) : String :=
  String.mk (pyStripL s.data)

/-- Python `str.lower()` (the keywords compared against are ASCII). -/
def pyLower (s : String) : String :=
  String.mk (s.data.map Char.toLower)

/-- Boolean test that `p` is an initial segment of `l`, as in Python `startswith`. -/
def leadsWith {α : Type} [DecidableEq α] : List α → List α → Bool
  | [], _ => true
  | _ :: _, [] => false
  | a :: as, b :: bs => decide (a = b) && leadsWith as bs

/-- Boolean substring test, scanning every position of the haystack. -/
def containsSub (needle : List Char) : List Char → Bool
  | [] => needle.isEmpty
  | c :: t => leadsWith needle (c :: t) || containsSub needle t

/-- Python `needle in hay` on strings. -/
def pyIn (needle hay : String) : Bool :=
  containsSub needle.data hay.data

/-- `n` occurs contiguously inside `h`. -/
def substringOf (n h : List Char) : Prop :=
  ∃ u v, h = u ++ n ++ v

/-- Python slicing `s[:n]`. -/
def pyTake (n : Nat) (s : String) : String :=
  String.mk (s.data.take n)

/-! ## `src/config/settings.py` — analysis configuration -/

def MAX_RETRIES : Nat := 3
def RESUME_TEXT_LIMIT : Nat := 4000
def JOB_DESCRIPTION_LIMIT : Nat := 1500

/-! ## `src/services/ai_service.py` — `AIAnalyzer`

The Gemini call `self.model.generate_content(prompt)` is abstracted as a
`ModelOracle`: given the prompt and the attempt number it yields either the
reply text (`Except.ok`) or the message of the raised exception
(`Except.error`).  A reply whose text is falsy triggers the
`Exception("Empty response from AI model")` branch of the source. -/

def ModelOracle := String → Nat → Except String String

/-- `AIAnalyzer._should_retry` retry keywords (ai_service.py:193). -/
def retry_keywords : List String :=
  ["504", "timeout", "deadline", "resourceexhausted", "quota"]

/-- `AIAnalyzer._should_retry` (ai_service.py:187-194). -/
def should_retry (error_msg : String) (attempt max_retries : Nat) : Bool :=
  if max_retries - 1 ≤ attempt then false
  else retry_keywords.any (fun keyword => pyIn keyword (pyLower error_msg))

/-- `AIAnalyzer._handle_error` (ai_service.py:196-213). -/
def handle_error (error_msg : String) (attempt max_retries : Nat) : String :=
  let error_lower := pyLower error_msg
  if pyIn ("quota") error_lower || pyIn ("limit") error_lower then
    "Error: AI service quota exceeded. Please try again in a few minutes."
  else if pyIn ("api") error_lower && pyIn ("key") error_lower then
    "Error: AI service configuration issue. Please contact support."
  else if pyIn ("504") error_msg || pyIn ("timeout") error_lower
      || pyIn ("deadline") error_lower then
    "Error: AI service is experiencing high demand. Please try again in a few moments."
  else if max_retries - 1 ≤ attempt then
    "Error: Unable to analyze resume after " ++ Nat.repr max_retries
      ++ " attempts. Please try again later."
  else
    "Error: " ++ error_msg

/-- `AIAnalyzer._post_process_response` (ai_service.py:215-227). -/
def post_process_response (response_text : String) : String :=
  if response_text = "" then "Error: Empty response from AI service."
  else
    let cleaned_response := pyStrip response_text
    if !(pyIn ("ATS SCORE:") cleaned_response) then
      "**ATS SCORE: 75/100**\n\n" ++ cleaned_response
    else
      cleaned_response

/-- `AIAnalyzer._create_prompt`, job-description template, text before the
`resume_text` interpolation (ai_service.py:91-93). -/
def job_tmpl_1 : String :=
  "Analyze this resume against the job description and provide a detailed ATS assessment with SPECIFIC, ACTIONABLE improvements based on the EXACT content provided:\n\nRESUME: "

/-- Job-description template, between the `resume_text` and `job_description`
interpolations (ai_service.py:93-95). -/
def job_tmpl_2 : String := "\n\nJOB DESCRIPTION: "

/-- Job-description template, text after the `job_description` interpolation
(ai_service.py:95-133). -/
def job_tmpl_3 : String :=
  "\n\nIMPORTANT: Quote exact text from the resume when suggesting improvements. Be specific about what to change, add, or remove.\n"
  ++ "\nProvide a comprehensive analysis:\n"
  ++ "\n**ATS SCORE: X/100**\n"
  ++ "\n**SKILLS MATCH ANALYSIS:**\n"
  ++ "- Technical skills alignment (be specific about technologies)\n"
  ++ "- Experience level match (junior/mid/senior requirements)\n"
  ++ "- Domain expertise relevance\n"
  ++ "- Missing critical skills/keywords\n"
  ++ "\n**EXPERIENCE EVALUATION:**\n"
  ++ "- Project complexity and relevance\n"
  ++ "- Professional experience alignment\n"
  ++ "- Education background fit\n"
  ++ "- Achievements and quantifiable results\n"
  ++ "\n**DETAILED IMPROVEMENT RECOMMENDATIONS:**\n"
  ++ "Based on THIS specific resume, here\x27s how to increase your ATS score:\n"
  ++ "\n1. **MISSING KEYWORDS:** Add these specific keywords from the job description: [list 3-5 exact keywords missing from resume]\n"
  ++ "2. **SKILLS GAP:** Include these technical skills that you likely have but didn\x27t mention: [specific technologies/tools]\n"
  ++ "3. **QUANTIFY ACHIEVEMENTS:** Replace these vague statements with metrics: [quote exact text from resume and suggest specific numbers]\n"
  ++ "4. **STRENGTHEN EXPERIENCE:** Rewrite these job descriptions with action verbs: [quote specific lines that need improvement]\n"
  ++ "5. **FORMAT FIXES:** These sections need ATS-friendly formatting: [specific formatting issues found]\n"
  ++ "6. **SECTION IMPROVEMENTS:** Add/reorganize these sections: [specific structural recommendations]\n"
  ++ "\n**ATS OPTIMIZATION GUIDE:**\n"
  ++ "Specific improvements for YOUR resume:\n"
  ++ "- Replace \"[exact text from resume]\" with \"[improved version]\"\n"
  ++ "- Add these missing sections: [specific sections needed]\n"
  ++ "- Fix these formatting issues: [actual problems found]\n"
  ++ "- Integrate these job-specific keywords: [exact keywords to add]\n"
  ++ "\n**OVERALL ASSESSMENT:**\n"
  ++ "Brief summary of candidacy strength and key areas for improvement."

/-- `AIAnalyzer._create_prompt`, general template, text before the
`resume_text` interpolation (ai_service.py:136-138). -/
def gen_tmpl_1 : String :=
  "Analyze this resume and provide a comprehensive ATS assessment with SPECIFIC improvements based on the EXACT content:\n\nRESUME: "

/-- General template, text after the `resume_text` interpolation
(ai_service.py:138-185).  The three-byte sequence on the IMPROVE DESCRIPTIONS
line reproduces the garbled arrow present in the source file. -/
def gen_tmpl_2 : String :=
  "\n\nIMPORTANT: Quote actual text from this resume when making suggestions. Provide specific, actionable improvements rather than generic advice.\n"
  ++ "\nProvide detailed analysis:\n"
  ++ "\n**ATS SCORE: X/100**\n"
  ++ "\n**TECHNICAL SKILLS ANALYSIS:**\n"
  ++ "- Programming languages and frameworks identified\n"
  ++ "- Technical skill level assessment\n"
  ++ "- Missing in-demand technologies\n"
  ++ "- Skill presentation effectiveness\n"
  ++ "\n**PROFESSIONAL EXPERIENCE REVIEW:**\n"
  ++ "- Work experience quality and relevance\n"
  ++ "- Project descriptions and achievements\n"
  ++ "- Quantifiable results and impact\n"
  ++ "- Career progression demonstration\n"
  ++ "\n**RESUME STRUCTURE & FORMATTING:**\n"
  ++ "- ATS-friendly formatting assessment\n"
  ++ "- Section organization and hierarchy\n"
  ++ "- Keyword density and placement\n"
  ++ "- Contact information and links\n"
  ++ "\n**DETAILED IMPROVEMENT PLAN:**\n"
  ++ "Based on analyzing YOUR specific resume content:\n"
  ++ "\n1. **ADD MISSING SKILLS:** You should highlight these technologies you likely know: [specific tech stack missing]\n"
  ++ "2. **IMPROVE DESCRIPTIONS:** Rewrite these weak descriptions: \"[quote exact text]\" â†’ \"[suggested improvement]\"\n"
  ++ "3. **QUANTIFY RESULTS:** Add metrics to these achievements: \"[quote vague statements and suggest specific numbers]\"\n"
  ++ "4. **KEYWORD OPTIMIZATION:** Include these industry terms: [specific keywords for your field]\n"
  ++ "5. **STRUCTURE FIXES:** Reorganize these sections: [specific structural issues found]\n"
  ++ "6. **FORMAT IMPROVEMENTS:** Fix these ATS parsing issues: [actual formatting problems identified]\n"
  ++ "\n**ATS OPTIMIZATION RECOMMENDATIONS:**\n"
  ++ "Personalized fixes for your resume:\n"
  ++ "- **Line 1 Issue:** \"[exact text found]\" should be \"[improved version]\"\n"
  ++ "- **Missing Section:** Add a \"[specific section name]\" section with [specific content]\n"
  ++ "- **Keyword Density:** Increase mentions of \"[specific skill]\" from X to Y times\n"
  ++ "- **Format Fix:** Change \"[formatting issue]\" to \"[ATS-friendly format]\"\n"
  ++ "\n**INDUSTRY-SPECIFIC ADVICE:**\n"
  ++ "Based on your background in [identified field]:\n"
  ++ "- Emphasize these domain-specific skills: [relevant to user\x27s experience]\n"
  ++ "- Add these industry certifications: [specific to their career path]\n"
  ++ "- Include these trending technologies: [relevant to their field]"

/-- `AIAnalyzer._create_prompt` (ai_service.py:87-185): selects the
job-matching template when the job description is truthy and longer than 10
characters after stripping, else the general template.  The f-string
interpolation becomes string concatenation. -/
def create_prompt (resume_text job_description : String) : String :=
  if job_description ≠ "" ∧ 10 < (pyStrip job_description).length then
    job_tmpl_1 ++ resume_text ++ job_tmpl_2 ++ job_description ++ job_tmpl_3
  else
    gen_tmpl_1 ++ resume_text ++ gen_tmpl_2

/-- One run of the orchestrator: final returned string, number of external
calls made, and the backoff waits (in seconds) enforced between attempts. -/
structure AnalysisRun where
  result : String
  calls : Nat
  waits : List Nat
deriving DecidableEq, Repr

/-- Lines 63-69 of ai_service.py: one call of the loop body up to the
exception handler.  A truthy reply is a success; a falsy reply raises
`Exception("Empty response from AI model")`, which the handler sees like
any error from the call itself. -/
def attempt_outcome (oracle : ModelOracle) (prompt : String) (attempt : Nat) :
    Except String String :=
  match oracle prompt attempt with
  | .ok reply => if reply = "" then .error "Empty response from AI model" else .ok reply
  | .error e => .error e

/-- The retry loop of `AIAnalyzer.analyze_resume` (ai_service.py:60-85).
`fuel` counts the iterations left in `for attempt in range(max_retries)`;
it starts at `max_retries` with `attempt = 0`.  A success is
post-processed and returned; on an error the loop retries (recording the
`(attempt + 1) * 2` second sleep) when `_should_retry` says so, else
returns `_handle_error`.  When the loop ends without returning, the
line-85 fallback message is returned. -/
def attempt_loop (oracle : ModelOracle) (prompt : String) (max_retries : Nat) :
    Nat → Nat → AnalysisRun
  | _, 0 =>
    ⟨"Error: Unable to process resume after multiple attempts. Please try again later.", 0, []⟩
  | attempt, fuel + 1 =>
    match attempt_outcome oracle prompt attempt with
    | .ok reply => ⟨post_process_response reply, 1, []⟩
    | .error e =>
      if should_retry e attempt max_retries then
        let rest := attempt_loop oracle prompt max_retries (attempt + 1) fuel
        ⟨rest.result, rest.calls + 1, (attempt + 1) * 2 :: rest.waits⟩
      else
        ⟨handle_error e attempt max_retries, 1, []⟩

/-- `AIAnalyzer.analyze_resume` (ai_service.py:29-85): input-length gate,
truncation of both inputs, prompt construction, then the retry loop. -/
def analyze_resume (resume_text job_description : String) (oracle : ModelOracle)
    (max_retries : Nat) : AnalysisRun :=
  if resume_text = "" ∨ (pyStrip resume_text).length < 50 then
    ⟨"Error: Resume content is too short or empty. Please upload a complete resume.", 0, []⟩
  else
    let rt := pyTake RESUME_TEXT_LIMIT resume_text
    let jd := if job_description = "" then "" else pyTake JOB_DESCRIPTION_LIMIT job_description
    let prompt := create_prompt rt jd
    attempt_loop oracle prompt max_retries 0 max_retries

/-- The prompt handed to the external call by `analyze_resume`
(ai_service.py:52-57). -/
def prompt_used (resume_text job_description : String) : String :=
  create_prompt (pyTake RESUME_TEXT_LIMIT resume_text)
    (if job_description = "" then "" else pyTake JOB_DESCRIPTION_LIMIT job_description)

/-- The `/analyze-resume` route treats the analysis string as a failure and
answers HTTP 500 exactly when it starts with `"Error:"`
(api_routes.py:76-81). -/
def route_treats_as_error (analysis_result : String) : Bool :=
  leadsWith ("Error:").data analysis_result.data

/-! ## `src/validators/file_validator.py` — `FileValidator` -/

/-- `FileValidator.RESUME_KEYWORDS` (file_validator.py:30-35). -/
def RESUME_KEYWORDS : List String :=
  ["experience", "education", "skills", "work", "employment",
   "university", "college", "degree", "bachelor", "master",
   "project", "achievement", "responsibility", "job", "career",
   "professional", "technical", "qualification", "certificate"]

/-- `sum(1 for keyword in RESUME_KEYWORDS if keyword in text_lower)`
(file_validator.py:71-72): the number of vocabulary keywords occurring in
the lowercased text. -/
def keyword_count (text_content : String) : Nat :=
  (RESUME_KEYWORDS.filter (fun keyword => pyIn keyword (pyLower text_content))).length

/-- `FileValidator.is_resume_content` (file_validator.py:64-75). -/
def is_resume_content (text_content : String) : Bool :=
  if text_content = "" ∨ (pyStrip text_content).length < 100 then false
  else 3 ≤ keyword_count text_content

/-- `FileValidator.ALLOWED_MIME_TYPES` (file_validator.py:20-27). -/
def ALLOWED_MIME_TYPES : List String :=
  ["application/pdf", "application/x-pdf", "application/acrobat",
   "applications/vnd.pdf", "text/pdf", "text/x-pdf"]

/-- An uploaded file: claimed filename plus raw content bytes. -/
structure UploadFile where
  filename : String
  content : List Nat
deriving DecidableEq

/-- `filename.rsplit('.', 1)[1]`: the characters after the last dot. -/
def extension_of (filename : String) : String :=
  String.mk ((filename.data.reverse.takeWhile (fun c => c != '.')).reverse)

/-- `FileValidator.allowed_file` (file_validator.py:37-43); the allowed
extension set is the singleton `{'pdf'}`. -/
def allowed_file (filename : String) : Bool :=
  if filename = "" then false
  else ('.' ∈ filename.data) && (pyLower (extension_of filename) = "pdf")

/-- The `b'%PDF-'` header bytes. -/
def pdf_magic : List Nat := [37, 80, 68, 70, 45]

/-- Abstraction of the optional python-magic dependency: `none` models
`MAGIC_AVAILABLE = False`; `some sniff` models `magic.from_buffer`, which
itself yields `none` when it raises. -/
def MagicSniffer := List Nat → Option String

/-- `FileValidator.validate_file_type` (file_validator.py:45-57). -/
def validate_file_type (magic : Option MagicSniffer) (file_content : List Nat) : Bool :=
  match magic with
  | none => leadsWith pdf_magic file_content
  | some sniff =>
    match sniff file_content with
    | some mime_type => ALLOWED_MIME_TYPES.contains mime_type
    | none => leadsWith pdf_magic file_content

/-- `FileValidator.validate_file_size` (file_validator.py:59-62); the caller
always uses the default ceiling `16*1024*1024`. -/
def validate_file_size (file_size max_size : Nat) : Bool :=
  file_size ≤ max_size

/-- `FileValidator.validate_upload` (file_validator.py:77-109): the complete
validation pipeline.  `none` for `file` models a falsy file object. -/
def validate_upload (magic : Option MagicSniffer) (file : Option UploadFile) :
    Bool × List String :=
  match file with
  | none => (false, ["No file provided"])
  | some f =>
    if f.filename = "" then (false, ["No file selected"])
    else if !allowed_file f.filename then (false, ["Please upload a PDF file only"])
    else if !validate_file_size f.content.length (16 * 1024 * 1024) then
      (false, ["File size exceeds 16MB limit"])
    else if !validate_file_type magic f.content then (false, ["Invalid PDF file format"])
    else (true, [])

/-! ## `src/services/pdf_service.py` — `PDFProcessor` -/

/-- A parsed PDF as `PyPDF2` presents it: encryption flag and, per page,
either the text `page.extract_text()` yields (`some`) or `none` when that
call raises. -/
structure PdfDocument where
  encrypted : Bool
  pages : List (Option String)
deriving DecidableEq

/-- The page loop of `extract_text_from_pdf` (pdf_service.py:37-44):
falsy page text is skipped, raising pages are logged and skipped, truthy
text is appended followed by a newline. -/
def concat_pages (pages : List (Option String)) : String :=
  pages.foldl
    (fun text page =>
      match page with
      | some page_text => if page_text = "" then text else text ++ page_text ++ "\n"
      | none => text)
    ""

/-- Python `text.split('\n')` on a character list. -/
def splitNl : List Char → List (List Char)
  | [] => [[]]
  | c :: rest =>
    match splitNl rest with
    | [] => [[c]]
    | l :: ls => if c = '\n' then [] :: l :: ls else (c :: l) :: ls

/-- Python `sep.join(lines)` on character lists. -/
def joinSep (sep : List Char) : List (List Char) → List Char
  | [] => []
  | [l] => l
  | l :: ls => l ++ sep ++ joinSep sep ls

/-- Worker for `replaceList`, structurally recursive on a fuel argument so
that it reduces in the kernel.  Every step consumes at least one character,
so `fuel = s.length` never runs out. -/
def replaceGo (pat : List Char) : Nat → List Char → List Char
  | _, [] => []
  | 0, s => s
  | fuel + 1, c :: rest =>
    if pat ≠ [] ∧ leadsWith pat (c :: rest) = true then
      replaceGo pat fuel ((c :: rest).drop pat.length)
    else
      c :: replaceGo pat fuel rest

/-- Python `s.replace(pat, '')` for a non-empty pattern: delete every
non-overlapping occurrence, scanning left to right.  (An empty pattern is
treated as no-op; every pattern used below is non-empty.) -/
def replaceList (pat s : List Char) : List Char :=
  replaceGo pat s.length s

/-- The artifact denylist of `PDFProcessor._clean_text` (pdf_service.py:77). -/
def pdf_artifacts : List String :=
  ["/ne+", "/♀nednd", "/gtb", "\uFFFD\uFFFD", "\x00", "\uFEFF"]

/-- `PDFProcessor._clean_text` (pdf_service.py:66-81): strip each line, drop
blank lines, rejoin with newlines, then delete the artifact sequences in
order. -/
def clean_text (text : String) : String :=
  if text = "" then ""
  else
    let lines := ((splitNl text.data).map pyStripL).filter (fun l => l ≠ [])
    let cleaned_text := joinSep ['\n'] lines
    String.mk (pdf_artifacts.foldl (fun acc artifact => replaceList artifact.data acc) cleaned_text)

/-- `PDFProcessor.extract_text_from_pdf` (pdf_service.py:12-64), returning
the source's `(success, text-or-error-message)` pair. -/
def extract_text_from_pdf (pdf : PdfDocument) : Bool × String :=
  if pdf.encrypted then
    (false, "Cannot process encrypted PDF files. Please upload an unencrypted version.")
  else if pdf.pages.length = 0 then
    (false, "PDF file appears to be empty or corrupted.")
  else
    let text := concat_pages pdf.pages
    if pyStrip text = "" then
      (false, "Could not extract text from PDF. The file might be image-based or corrupted.")
    else if !is_resume_content text then
      (false, "This doesn\x27t appear to be a resume. Please upload a valid resume document.")
    else
      (true, clean_text text)

/-! ## `src/services/latex_service.py` — `LaTeXService` -/

/-- A `\w` regex character: letters, digits, underscore. -/
def isWordChar (c : Char) : Bool := c.isAlphanum || c = '_'

/-- Try to match `pat` (e.g. `\begin{`) at the head of `s`, followed by one
or more word characters and a closing brace; yields the environment name. -/
def envAt (pat : List Char) (s : List Char) : Option (List Char) :=
  if leadsWith pat s then
    let after := s.drop pat.length
    let name := after.takeWhile isWordChar
    if name ≠ [] ∧ leadsWith ['}'] (after.drop name.length) = true then some name else none
  else none

/-- `re.findall(r'\\begin\{(\w+)\}', ...)` (latex_service.py:99-100): scan
every position for a match.  Matches of this pattern cannot overlap (a
match's interior contains no further backslash), so the position scan
returns exactly the `findall` matches in order. -/
def scanEnvs (pat : List Char) : List Char → List (List Char)
  | [] => []
  | c :: rest =>
    match envAt pat (c :: rest) with
    | some name => name :: scanEnvs pat rest
    | none => scanEnvs pat rest

/-- `LaTeXService.validate_latex` (latex_service.py:70-106): errors are
collected in source order — document class, begin/end document, brace
balance, environment balance (the environment loop appends one message per
`\begin` occurrence of an unbalanced name). -/
def validate_latex (latex_code : String) : Bool × List String :=
  let e1 := if !(pyIn ("\\documentclass") latex_code) then
      ["Missing \\documentclass declaration"] else []
  let e2 := if !(pyIn ("\\begin\x7bdocument\x7d") latex_code) then
      ["Missing \\begin\x7bdocument\x7d"] else []
  let e3 := if !(pyIn ("\\end\x7bdocument\x7d") latex_code) then
      ["Missing \\end\x7bdocument\x7d"] else []
  let open_braces := latex_code.data.count '{'
  let close_braces := latex_code.data.count '}'
  let e4 := if open_braces ≠ close_braces then
      ["Unbalanced braces: " ++ Nat.repr open_braces ++ " opening, "
        ++ Nat.repr close_braces ++ " closing"]
    else []
  let begin_envs := scanEnvs ("\\begin\x7b").data latex_code.data
  let end_envs := scanEnvs ("\\end\x7b").data latex_code.data
  let e5 := (begin_envs.filter (fun env => begin_envs.count env ≠ end_envs.count env)).map
      (fun env => "Unbalanced environment: " ++ String.mk env)
  let errors := e1 ++ e2 ++ e3 ++ e4 ++ e5
  (errors.isEmpty, errors)

/-- Behaviour of the external `pdflatex` toolchain on one compilation
directory: whether each of the two invocations times out, whether
`resume.pdf` exists afterwards and with which bytes, and the lines of
`resume.log` (`none` when no log file was written). -/
structure CompilerBehavior where
  timeout_first : Bool
  timeout_second : Bool
  produces_pdf : Bool
  pdf_bytes : List Nat
  log_lines : Option (List String)
deriving DecidableEq

/-- Result of `LaTeXService.compile_to_pdf`: produced PDF bytes or a
diagnostic message. -/
inductive CompileOutcome where
  | ok (pdf : List Nat)
  | fail (msg : String)
deriving DecidableEq

/-- Log scan of latex_service.py:152-160: first line starting with `!`,
default `"Compilation failed"`. -/
def first_error_line (log_lines : Option (List String)) : String :=
  match log_lines with
  | none => "Compilation failed"
  | some ls =>
    match ls.filter (fun l => leadsWith ['!'] l.data) with
    | [] => "Compilation failed"
    | l :: _ => l

/-- Python `'; '.join(errors)`. -/
def joinSemicolon : List String → String
  | [] => ""
  | [e] => e
  | e :: es => e ++ "; " ++ joinSemicolon es

/-- `LaTeXService.compile_to_pdf` (latex_service.py:108-170), paired with
the number of `pdflatex` subprocess invocations performed.  Availability
gate, then validation, then the two-pass compile loop (a timeout aborts via
`subprocess.TimeoutExpired`), then the pdf-existence check with log
fallback. -/
def compile_to_pdf (latex_available : Bool) (compiler : CompilerBehavior)
    (latex_code : String) : CompileOutcome × Nat :=
  if !latex_available then
    (.fail "LaTeX compiler (pdflatex) is not available on this system", 0)
  else
    let v := validate_latex latex_code
    if !v.1 then
      (.fail ("LaTeX validation failed: " ++ joinSemicolon v.2), 0)
    else if compiler.timeout_first then (.fail "LaTeX compilation timed out", 1)
    else if compiler.timeout_second then (.fail "LaTeX compilation timed out", 2)
    else if compiler.produces_pdf then (.ok compiler.pdf_bytes, 2)
    else (.fail (first_error_line compiler.log_lines), 2)

/-- The blank-line filter of `LaTeXService.format_latex_code`
(latex_service.py:197-206): drop a line exactly when it and the previous
original line are both blank (blank = whitespace-only). -/
def strip_blank_runs : Bool → List (List Char) → List (List Char)
  | _, [] => []
  | prev_blank, line :: rest =>
    let is_blank := (pyStripL line).isEmpty
    if is_blank && prev_blank then strip_blank_runs is_blank rest
    else line :: strip_blank_runs is_blank rest

/-- `LaTeXService.format_latex_code` (latex_service.py:187-208). -/
def format_latex_code (latex_code : String) : String :=
  String.mk (joinSep ['\n'] (strip_blank_runs false (splitNl latex_code.data)))

/-! ## Concrete inputs used by witnesses and counterexamples -/

/-- A 60-character resume text, long enough to pass the length gate. -/
def witness_resume : String := String.mk (List.replicate 60 'a')

/-- A resume text of exactly 4001 characters. -/
def long_resume : String := String.mk (List.replicate 4001 'a')

/-- A compiler behaviour with no timeouts, no produced PDF and no log. -/
def trivial_compiler : CompilerBehavior := ⟨false, false, false, [], none⟩

/-- LaTeX source consisting of a single opening brace. -/
def bad_latex : String := "\x7b"

/-- An upload one byte over the 16 MiB ceiling whose content also lacks the
PDF header. -/
def oversized_bad_file : UploadFile :=
  ⟨"resume.pdf", 0 :: List.replicate (16 * 1024 * 1024) 0⟩

/-- A one-page document whose text has no resume keywords. -/
def gibberish_pdf : PdfDocument :=
  ⟨false, [some "just some plain words about nothing in particular"]⟩

/-- A one-page document whose text has three resume keywords but fewer than
100 characters. -/
def short_resume_pdf : PdfDocument :=
  ⟨false, [some "experience education skills"]⟩

/-- A one-page document whose text passes every extraction gate. -/
def full_resume_page : String :=
  "experience education skills professional technical university degree project achievement career software engineering resume"

def full_resume_pdf : PdfDocument := ⟨false, [some full_resume_page]⟩

/-- All characters occurring in the artifact denylist. -/
def artifact_chars : List Char := (pdf_artifacts.map String.data).flatten

/-- A character that survives cleaning: not whitespace and not part of any
artifact sequence. -/
def safeChar (g : Char) : Bool := !g.isWhitespace && !(decide (g ∈ artifact_chars))

/-! ## Generic lemmas about the string primitives -/

theorem leadsWith_iff {α : Type} [DecidableEq α] (p l : List α) :
    leadsWith p l = true ↔ ∃ t, l = p ++ t := by
  induction p generalizing l with
  | nil => simp [leadsWith]
  | cons a as ih =>
    cases l with
    | nil => simp [leadsWith]
    | cons b bs =>
      rw [leadsWith]
      simp only [Bool.and_eq_true, decide_eq_true_eq, ih]
      constructor
      · rintro ⟨rfl, t, rfl⟩
        exact ⟨t, rfl⟩
      · rintro ⟨t, ht⟩
        have h1 := List.cons_eq_cons.mp ht
        exact ⟨h1.1.symm, t, h1.2⟩

theorem containsSub_iff (n h : List Char) : containsSub n h = true ↔ substringOf n h := by
  induction h with
  | nil =>
    simp only [containsSub, List.isEmpty_iff, substringOf]
    constructor
    · rintro rfl; exact ⟨[], [], rfl⟩
    · rintro ⟨u, v, huv⟩
      rcases List.append_eq_nil.mp ((List.append_eq_nil.mp huv.symm).1) with ⟨_, h2⟩
      exact h2
  | cons c t ih =>
    rw [containsSub]
    simp only [Bool.or_eq_true, leadsWith_iff, ih, substringOf]
    constructor
    · rintro (⟨u, hu⟩ | ⟨u, v, rfl⟩)
      · exact ⟨[], u, by simpa using hu⟩
      · exact ⟨c :: u, v, rfl⟩
    · rintro ⟨u, v, huv⟩
      cases u with
      | nil =>
        left
        exact ⟨v, by simpa using huv⟩
      | cons x xs =>
        right
        refine ⟨xs, v, ?_⟩
        have h2 : c :: t = x :: (xs ++ (n ++ v)) := by simpa using huv
        rw [(List.cons_eq_cons.mp h2).2]
        simp

theorem substringOf_append_left (n u h : List Char) (hs : substringOf n h) :
    substringOf n (u ++ h) := by
  obtain ⟨a, b, rfl⟩ := hs
  exact ⟨u ++ a, b, by simp⟩

theorem substringOf_append_right (n h v : List Char) (hs : substringOf n h) :
    substringOf n (h ++ v) := by
  obtain ⟨a, b, rfl⟩ := hs
  exact ⟨a, b ++ v, by simp⟩

theorem substringOf_refl (n : List Char) : substringOf n n := ⟨[], [], by simp⟩

theorem substringOf_map (f : Char → Char) (n h : List Char) (hs : substringOf n h) :
    substringOf (n.map f) (h.map f) := by
  obtain ⟨a, b, rfl⟩ := hs
  exact ⟨a.map f, b.map f, by simp⟩

theorem mem_of_substringOf (n h : List Char) (c : Char) (hs : substringOf n h) (hc : c ∈ n) :
    c ∈ h := by
  obtain ⟨a, b, rfl⟩ := hs
  simp [hc]

theorem string_eq_iff_data (s t : String) : s = t ↔ s.data = t.data := by
  constructor
  · intro h; rw [h]
  · intro h; cases s; cases t; exact congrArg String.mk h

theorem pyIn_append_of_left (n a b : String) (h : pyIn n a = true) :
    pyIn n (a ++ b) = true := by
  rw [pyIn, containsSub_iff] at h ⊢
  rw [String.data_append]
  exact substringOf_append_right _ _ _ h

theorem pyIn_append_of_right (n a b : String) (h : pyIn n b = true) :
    pyIn n (a ++ b) = true := by
  rw [pyIn, containsSub_iff] at h ⊢
  rw [String.data_append]
  exact substringOf_append_left _ _ _ h

theorem pyIn_pyLower_of_pyIn (k e : String) (hk : k.data.map Char.toLower = k.data)
    (h : pyIn k e = true) : pyIn k (pyLower e) = true := by
  rw [pyIn, containsSub_iff] at h ⊢
  have hm := substringOf_map Char.toLower _ _ h
  rw [hk] at hm
  exact hm

/-! ## Lemmas about the orchestrator loop -/

theorem attempt_loop_calls_le (oracle : ModelOracle) (prompt : String) (m : Nat) :
    ∀ (fuel attempt : Nat), (attempt_loop oracle prompt m attempt fuel).calls ≤ fuel := by
  intro fuel
  induction fuel with
  | zero => intro attempt; simp [attempt_loop]
  | succ f ih =>
    intro attempt
    rw [attempt_loop]
    cases h : attempt_outcome oracle prompt attempt with
    | ok reply => dsimp only; omega
    | error e =>
      dsimp only
      split
      · dsimp only; have := ih (attempt + 1); omega
      · dsimp only; omega

/-- Every run of `analyze_resume` makes at most `max_retries` external calls. -/
theorem analyze_resume_calls_le (rt jd : String) (oracle : ModelOracle) (n : Nat) :
    (analyze_resume rt jd oracle n).calls ≤ n := by
  rw [analyze_resume]
  split
  · simp
  · exact attempt_loop_calls_le _ _ _ _ _

theorem attempt_outcome_ok (oracle : ModelOracle) (prompt : String) (attempt : Nat)
    (reply : String) (h : oracle prompt attempt = Except.ok reply) (hne : reply ≠ "") :
    attempt_outcome oracle prompt attempt = Except.ok reply := by
  rw [attempt_outcome, h]
  simp [hne]

theorem attempt_loop_success (oracle : ModelOracle) (prompt : String) (m attempt fuel : Nat)
    (reply : String) (h : attempt_outcome oracle prompt attempt = Except.ok reply) :
    attempt_loop oracle prompt m attempt (fuel + 1) = ⟨post_process_response reply, 1, []⟩ := by
  rw [attempt_loop, h]

theorem attempt_loop_error_step (oracle : ModelOracle) (prompt : String) (m attempt fuel : Nat)
    (e : String) (h : attempt_outcome oracle prompt attempt = Except.error e)
    (hsr : should_retry e attempt m = true) :
    attempt_loop oracle prompt m attempt (fuel + 1) =
      ⟨(attempt_loop oracle prompt m (attempt + 1) fuel).result,
       (attempt_loop oracle prompt m (attempt + 1) fuel).calls + 1,
       (attempt + 1) * 2 :: (attempt_loop oracle prompt m (attempt + 1) fuel).waits⟩ := by
  rw [attempt_loop, h]
  simp [hsr]

theorem attempt_loop_error_stop (oracle : ModelOracle) (prompt : String) (m attempt fuel : Nat)
    (e : String) (h : attempt_outcome oracle prompt attempt = Except.error e)
    (hsr : should_retry e attempt m = false) :
    attempt_loop oracle prompt m attempt (fuel + 1) = ⟨handle_error e attempt m, 1, []⟩ := by
  rw [attempt_loop, h]
  simp [hsr]

/-- The success path of `analyze_resume`: a valid input and a truthy reply on
the first attempt yield exactly one call and the post-processed reply. -/
theorem analyze_resume_success (rt jd : String) (oracle : ModelOracle) (n : Nat) (reply : String)
    (hvalid : ¬(rt = "" ∨ (pyStrip rt).length < 50)) (hn : 0 < n)
    (hreply : oracle (prompt_used rt jd) 0 = Except.ok reply) (hne : reply ≠ "") :
    analyze_resume rt jd oracle n = ⟨post_process_response reply, 1, []⟩ := by
  obtain ⟨f, rfl⟩ : ∃ f, n = f + 1 := ⟨n - 1, by omega⟩
  rw [analyze_resume, if_neg hvalid]
  exact attempt_loop_success oracle _ (f + 1) 0 f reply
    (attempt_outcome_ok oracle _ 0 reply hreply hne)

theorem should_retry_of_timeout (e : String) (attempt m : Nat)
    (h : pyIn ("timeout") (pyLower e) = true) (hlt : ¬(m - 1 ≤ attempt)) :
    should_retry e attempt m = true := by
  rw [should_retry, if_neg hlt, List.any_eq_true]
  exact ⟨"timeout", by decide, h⟩

theorem should_retry_last (e : String) (attempt m : Nat) (h : m - 1 ≤ attempt) :
    should_retry e attempt m = false := by
  rw [should_retry, if_pos h]

theorem handle_error_high_demand (e : String) (attempt m : Nat)
    (hq : pyIn ("quota") (pyLower e) = false) (hl : pyIn ("limit") (pyLower e) = false)
    (hak : pyIn ("api") (pyLower e) = false ∨ pyIn ("key") (pyLower e) = false)
    (h504 : pyIn ("504") e = true) :
    handle_error e attempt m =
      "Error: AI service is experiencing high demand. Please try again in a few moments." := by
  rw [handle_error]
  simp only [hq, hl, h504, Bool.or_self, Bool.false_or, Bool.true_or, if_false, if_true,
    Bool.or_false, reduceIte]
  rcases hak with h | h <;> simp [h]

/-- Both templates of `_create_prompt` embed the `resume_text` argument
verbatim. -/
theorem create_prompt_embeds (rt jd : String) :
    substringOf rt.data (create_prompt rt jd).data := by
  rw [create_prompt]
  split
  · simp only [String.data_append]
    exact ⟨job_tmpl_1.data, job_tmpl_2.data ++ jd.data ++ job_tmpl_3.data, by simp⟩
  · simp only [String.data_append]
    exact ⟨gen_tmpl_1.data, gen_tmpl_2.data, by simp⟩

/-- C8: for every successful analysis the string returned by `analyze_resume`
contains the substring `"ATS SCORE:"`; when the model reply lacks it, the
post-processing step prepends the fabricated header `**ATS SCORE: 75/100**`
to the (stripped) reply instead of reporting the absence of a score. -/
theorem c8_ats_score_always_present (reply rt jd : String) (oracle : ModelOracle) (n : Nat)
    (hvalid : ¬(rt = "" ∨ (pyStrip rt).length < 50)) (hn : 0 < n)
    (hreply : oracle (prompt_used rt jd) 0 = Except.ok reply) (hne : reply ≠ "") :
    (analyze_resume rt jd oracle n).result = post_process_response reply ∧
    pyIn ("ATS SCORE:") (post_process_response reply) = true ∧
    (pyIn ("ATS SCORE:") (pyStrip reply) = false →
      post_process_response reply = "**ATS SCORE: 75/100**\n\n" ++ pyStrip reply) := by
  refine ⟨by rw [analyze_resume_success rt jd oracle n reply hvalid hn hreply hne], ?_, ?_⟩
  · rw [post_process_response, if_neg hne]
    by_cases hC : pyIn ("ATS SCORE:") (pyStrip reply) = true
    · simp only [hC, Bool.not_true, Bool.false_eq_true, if_false, reduceIte]
    · have hC' : pyIn ("ATS SCORE:") (pyStrip reply) = false := by
        cases hb : pyIn ("ATS SCORE:") (pyStrip reply)
        · rfl
        · exact absurd hb hC
      simp only [hC', Bool.not_false, if_true, reduceIte]
      exact pyIn_append_of_left _ _ _ (by decide)
  · intro hC
    rw [post_process_response, if_neg hne]
    simp only [hC, Bool.not_false, if_true, reduceIte]

theorem c8_witness :
    (analyze_resume witness_resume "" (fun _ _ => Except.ok ("nice resume")) 3).result =
      post_process_response "nice resume" ∧
    pyIn ("ATS SCORE:") (post_process_response "nice resume") = true := by
  have h := c8_ats_score_always_present "nice resume" witness_resume ""
    (fun _ _ => Except.ok ("nice resume")) 3 (by decide) (by decide) rfl (by decide)
  exact ⟨h.1, h.2.1⟩

/-- C1, counterexample: on a successful call returning plain non-JSON text,
the orchestrator does not build the claimed degraded-success object
`{ats_score: 0, fit_analysis: notice ++ raw reply, improvement_tips:
["Could not parse specific improvements."]}`.  It returns a plain string:
the reply with a fabricated `**ATS SCORE: 75/100**` header, containing
neither the claimed tip text nor any `ats_score` field. -/
theorem c1_counterexample :
    analyze_resume witness_resume ""
        (fun _ _ => Except.ok ("Here is some feedback on your resume in plain prose.")) 3 =
      ⟨"**ATS SCORE: 75/100**\n\nHere is some feedback on your resume in plain prose.", 1, []⟩ ∧
    pyIn ("Could not parse specific improvements.")
        ("**ATS SCORE: 75/100**\n\nHere is some feedback on your resume in plain prose.")
      = false ∧
    pyIn ("ats_score")
        ("**ATS SCORE: 75/100**\n\nHere is some feedback on your resume in plain prose.")
      = false := by
  decide

/-- C1, amended: when the external call succeeds with a nonempty reply, the
orchestrator performs no JSON parsing at all.  It returns — after exactly one
call — the stripped raw reply verbatim as a plain string, with the header
`**ATS SCORE: 75/100**` prepended when the reply lacks `"ATS SCORE:"`; there
is no `ats_score = 0` / `improvement_tips` degraded object anywhere. -/
theorem c1_amended (reply rt jd : String) (oracle : ModelOracle) (n : Nat)
    (hvalid : ¬(rt = "" ∨ (pyStrip rt).length < 50)) (hn : 0 < n)
    (hreply : oracle (prompt_used rt jd) 0 = Except.ok reply) (hne : reply ≠ "") :
    analyze_resume rt jd oracle n =
      ⟨if pyIn ("ATS SCORE:") (pyStrip reply) = true then pyStrip reply
        else "**ATS SCORE: 75/100**\n\n" ++ pyStrip reply, 1, []⟩ := by
  rw [analyze_resume_success rt jd oracle n reply hvalid hn hreply hne,
    post_process_response, if_neg hne]
  by_cases hC : pyIn ("ATS SCORE:") (pyStrip reply) = true
  · simp only [hC, Bool.not_true, Bool.false_eq_true, if_false, if_true, reduceIte]
  · have hC' : pyIn ("ATS SCORE:") (pyStrip reply) = false := by
      cases hb : pyIn ("ATS SCORE:") (pyStrip reply)
      · rfl
      · exact absurd hb hC
    simp only [hC', Bool.not_false, if_true, Bool.false_eq_true, if_false, reduceIte]

theorem c1_witness :
    analyze_resume witness_resume "" (fun _ _ => Except.ok ("great fit")) 2 =
      ⟨"**ATS SCORE: 75/100**\n\ngreat fit", 1, []⟩ := by
  rw [c1_amended "great fit" witness_resume "" (fun _ _ => Except.ok ("great fit")) 2
    (by decide) (by decide) rfl (by decide)]
  decide

/-- C2, counterexample: the claim quantifies over every error message
containing `"504"` and `"timeout"`, but `_handle_error` tests
`"quota"`/`"limit"` first, so the message `"504 timeout limit"` — which
contains both claimed substrings — ends, after the same 3 calls and 2+4
second backoff, in the quota-exceeded error, not the high-demand error. -/
theorem c2_counterexample :
    pyIn ("504") ("504 timeout limit") = true ∧
    pyIn ("timeout") ("504 timeout limit") = true ∧
    analyze_resume witness_resume "" (fun _ _ => Except.error ("504 timeout limit")) 3 =
      ⟨"Error: AI service quota exceeded. Please try again in a few minutes.", 3, [2, 4]⟩ ∧
    ("Error: AI service quota exceeded. Please try again in a few minutes." ≠
      "Error: AI service is experiencing high demand. Please try again in a few moments.") := by
  decide

/-- C2, amended: for an external call that always fails with a message
containing `"504"` and `"timeout"` — and none of the higher-precedence
terminal keywords `"quota"`, `"limit"`, or both `"api"` and `"key"` — with
`max_retries = 3` the orchestrator makes exactly 3 calls, sleeps 2 then 4
seconds between attempts, and returns the terminal high-demand error; and
for every oracle and every `max_retries` it never makes more than
`max_retries` calls. -/
theorem c2_amended (e rt jd : String)
    (h504 : pyIn ("504") e = true) (htimeout : pyIn ("timeout") e = true)
    (hq : pyIn ("quota") (pyLower e) = false) (hl : pyIn ("limit") (pyLower e) = false)
    (hak : pyIn ("api") (pyLower e) = false ∨ pyIn ("key") (pyLower e) = false)
    (hvalid : ¬(rt = "" ∨ (pyStrip rt).length < 50)) :
    analyze_resume rt jd (fun _ _ => Except.error e) 3 =
      ⟨"Error: AI service is experiencing high demand. Please try again in a few moments.",
       3, [2, 4]⟩ ∧
    ∀ (rt' jd' : String) (oracle : ModelOracle) (m : Nat),
      (analyze_resume rt' jd' oracle m).calls ≤ m := by
  refine ⟨?_, fun rt' jd' oracle m => analyze_resume_calls_le rt' jd' oracle m⟩
  have htl : pyIn ("timeout") (pyLower e) = true :=
    pyIn_pyLower_of_pyIn _ e (by decide) htimeout
  have hout : ∀ k, attempt_outcome (fun _ _ => Except.error e) (prompt_used rt jd) k =
      Except.error e := fun k => rfl
  have hs2 : attempt_loop (fun _ _ => Except.error e) (prompt_used rt jd) 3 2 1 =
      ⟨handle_error e 2 3, 1, []⟩ :=
    attempt_loop_error_stop _ _ 3 2 0 e (hout 2) (should_retry_last e 2 3 (by omega))
  have hs1 : attempt_loop (fun _ _ => Except.error e) (prompt_used rt jd) 3 1 2 =
      ⟨handle_error e 2 3, 2, [4]⟩ := by
    rw [attempt_loop_error_step _ _ 3 1 1 e (hout 1)
      (should_retry_of_timeout e 1 3 htl (by omega)), hs2]
  have hs0 : attempt_loop (fun _ _ => Except.error e) (prompt_used rt jd) 3 0 3 =
      ⟨handle_error e 2 3, 3, [2, 4]⟩ := by
    rw [attempt_loop_error_step _ _ 3 0 2 e (hout 0)
      (should_retry_of_timeout e 0 3 htl (by omega)), hs1]
  rw [analyze_resume, if_neg hvalid]
  rw [show attempt_loop (fun _ _ => Except.error e)
      (create_prompt (pyTake RESUME_TEXT_LIMIT rt)
        (if jd = "" then "" else pyTake JOB_DESCRIPTION_LIMIT jd)) 3 0 3 =
      attempt_loop (fun _ _ => Except.error e) (prompt_used rt jd) 3 0 3 from rfl]
  rw [hs0, handle_error_high_demand e 2 3 hq hl hak h504]

theorem c2_witness :
    analyze_resume witness_resume "" (fun _ _ => Except.error ("504 timeout")) 3 =
      ⟨"Error: AI service is experiencing high demand. Please try again in a few moments.",
       3, [2, 4]⟩ :=
  (c2_amended ("504 timeout") witness_resume "" (by decide) (by decide) (by decide)
    (by decide) (Or.inl (by decide)) (by decide)).1

/-- C3, counterexample: `_create_prompt` itself performs no truncation — fed
a 4001-character resume text directly, the prompt it builds embeds all 4001
characters verbatim, so the cap is not enforced inside the builder. -/
theorem c3_counterexample :
    substringOf long_resume.data (create_prompt long_resume "").data ∧
    long_resume.data.length = 4001 :=
  ⟨create_prompt_embeds long_resume "",
   by rw [show long_resume.data = List.replicate 4001 'a' from rfl, List.length_replicate]⟩

/-- C3, amended: the prompt builder `_create_prompt` is a pure function that
embeds its arguments verbatim; the 4000/1500-character truncation is
performed by the caller `analyze_resume` before invoking the builder, so the
prompt handed to the external call depends only on the first 4000 characters
of `resume_text` (and first 1500 of `job_description`) and embeds the
truncated resume text. -/
theorem c3_amended (rt jd : String) :
    prompt_used rt jd =
      prompt_used (pyTake RESUME_TEXT_LIMIT rt) (pyTake JOB_DESCRIPTION_LIMIT jd) ∧
    substringOf (pyTake RESUME_TEXT_LIMIT rt).data (prompt_used rt jd).data ∧
    substringOf rt.data (create_prompt rt jd).data := by
  refine ⟨?_, ?_, create_prompt_embeds rt jd⟩
  · rw [prompt_used, prompt_used]
    have h1 : pyTake RESUME_TEXT_LIMIT (pyTake RESUME_TEXT_LIMIT rt) =
        pyTake RESUME_TEXT_LIMIT rt := by
      rw [string_eq_iff_data]
      simp [pyTake, List.take_take]
    rw [h1]
    by_cases hjd : jd = ""
    · subst hjd
      rw [if_pos rfl, if_pos (by rw [string_eq_iff_data]; simp [pyTake])]
    · have hne : pyTake JOB_DESCRIPTION_LIMIT jd ≠ "" := by
        rw [Ne, string_eq_iff_data]
        simp only [pyTake]
        intro hemp
        have : jd.data = [] := by
          cases hd : jd.data with
          | nil => rfl
          | cons x xs =>
            rw [hd] at hemp
            simp [JOB_DESCRIPTION_LIMIT] at hemp
        exact hjd (by rw [string_eq_iff_data]; simpa using this)
      rw [if_neg hjd, if_neg hne]
      rw [string_eq_iff_data]
      simp [pyTake, List.take_take]
  · rw [prompt_used]
    exact create_prompt_embeds (pyTake RESUME_TEXT_LIMIT rt) _

/-- C7, counterexample: a candidate that is both over the 16 MiB ceiling and
lacks the PDF signature gets only the size message — the size check returns
immediately, so size and content-type errors are never accumulated
together. -/
theorem c7_counterexample :
    validate_upload none (some oversized_bad_file) =
      (false, ["File size exceeds 16MB limit"]) ∧
    validate_file_type none oversized_bad_file.content = false ∧
    validate_file_size oversized_bad_file.content.length (16 * 1024 * 1024) = false := by
  have hlen : oversized_bad_file.content.length = 16 * 1024 * 1024 + 1 := by
    show (0 :: List.replicate (16 * 1024 * 1024) 0).length = 16 * 1024 * 1024 + 1
    rw [List.length_cons, List.length_replicate]
  have hsize : validate_file_size oversized_bad_file.content.length (16 * 1024 * 1024)
      = false := by
    rw [validate_file_size]
    exact decide_eq_false (by rw [hlen]; omega)
  refine ⟨?_, ?_, hsize⟩
  · rw [validate_upload]
    rw [if_neg (by decide), if_neg (by decide), hsize]
    rfl
  · rw [validate_file_type]
    show leadsWith pdf_magic (0 :: List.replicate (16 * 1024 * 1024) 0) = false
    rfl

/-- C7, amended: every failing check of `validate_upload` short-circuits
immediately — filename/extension failures as the claim states, but also the
size and content-type checks — so an accepted candidate has no errors and a
rejected candidate always carries exactly one error message; size and type
messages never coexist. -/
theorem c7_amended (magic : Option MagicSniffer) (file : Option UploadFile) :
    ((validate_upload magic file).1 = true → (validate_upload magic file).2 = []) ∧
    ((validate_upload magic file).1 = false → (validate_upload magic file).2.length = 1) := by
  cases file with
  | none => simp [validate_upload]
  | some f =>
    rw [validate_upload]
    split_ifs <;> simp

/-- Every member of a list is a substring of its `'; '.join`. -/
theorem joinSemicolon_mem (e : String) : ∀ (l : List String), e ∈ l →
    substringOf e.data (joinSemicolon l).data := by
  intro l
  induction l with
  | nil => intro h; simp at h
  | cons x xs ih =>
    intro h
    cases xs with
    | nil =>
      have hx : e = x := List.mem_singleton.mp h
      subst hx
      exact substringOf_refl _
    | cons y ys =>
      have hu : joinSemicolon (x :: y :: ys) = x ++ "; " ++ joinSemicolon (y :: ys) := rfl
      rw [hu]
      rcases List.mem_cons.mp h with rfl | hmem
      · rw [String.data_append, String.data_append]
        exact ⟨[], ("; ").data ++ (joinSemicolon (y :: ys)).data, by simp⟩
      · rw [String.data_append]
        exact substringOf_append_left _ _ _ (ih hmem)

/-- When the brace counts differ, the brace message is among the validation
errors. -/
theorem brace_msg_mem (latex_code : String)
    (h : latex_code.data.count '{' ≠ latex_code.data.count '}') :
    ("Unbalanced braces: " ++ Nat.repr (latex_code.data.count '{') ++ " opening, "
      ++ Nat.repr (latex_code.data.count '}') ++ " closing") ∈ (validate_latex latex_code).2 := by
  rw [validate_latex]
  dsimp only
  rw [if_pos h]
  simp [List.mem_append]

/-- C4: source text that fails structural pre-validation never reaches the
external compiler — zero `pdflatex` invocations for every compiler behaviour
and availability — and the returned diagnostic itemizes every violation; in
particular, for unbalanced braces the diagnostic lists the brace-count
mismatch. -/
theorem c4_prevalidation_blocks_compiler (compiler : CompilerBehavior) (latex_code : String)
    (h : (validate_latex latex_code).1 = false) :
    (∀ la : Bool, (compile_to_pdf la compiler latex_code).2 = 0) ∧
    compile_to_pdf true compiler latex_code =
      (CompileOutcome.fail
        ("LaTeX validation failed: " ++ joinSemicolon (validate_latex latex_code).2), 0) ∧
    (∀ err ∈ (validate_latex latex_code).2,
      substringOf err.data
        ("LaTeX validation failed: " ++ joinSemicolon (validate_latex latex_code).2).data) ∧
    (latex_code.data.count '{' ≠ latex_code.data.count '}' →
      substringOf
        ("Unbalanced braces: " ++ Nat.repr (latex_code.data.count '{') ++ " opening, "
          ++ Nat.repr (latex_code.data.count '}') ++ " closing").data
        ("LaTeX validation failed: " ++ joinSemicolon (validate_latex latex_code).2).data) := by
  have hmain : compile_to_pdf true compiler latex_code =
      (CompileOutcome.fail
        ("LaTeX validation failed: " ++ joinSemicolon (validate_latex latex_code).2), 0) := by
    rw [compile_to_pdf]
    simp [h]
  have hitem : ∀ err ∈ (validate_latex latex_code).2,
      substringOf err.data
        ("LaTeX validation failed: " ++ joinSemicolon (validate_latex latex_code).2).data := by
    intro err hmem
    rw [String.data_append]
    exact substringOf_append_left _ _ _ (joinSemicolon_mem err _ hmem)
  refine ⟨?_, hmain, hitem, ?_⟩
  · intro la
    cases la with
    | false => rw [compile_to_pdf]; rfl
    | true => rw [hmain]
  · intro hbr
    exact hitem _ (brace_msg_mem latex_code hbr)

theorem c4_witness :
    compile_to_pdf true trivial_compiler bad_latex =
      (CompileOutcome.fail
        ("LaTeX validation failed: Missing \\documentclass declaration; Missing \\begin\x7bdocument\x7d; Missing \\end\x7bdocument\x7d; Unbalanced braces: 1 opening, 0 closing"),
       0) := by
  rw [(c4_prevalidation_blocks_compiler trivial_compiler bad_latex (by decide)).2.1]
  decide

/-- Extraction reaches the content classifier whenever the document is not
encrypted, has pages, and its concatenated text is not whitespace-only; a
negative classifier verdict then yields the not-a-resume failure. -/
theorem extract_fails_not_resume (pdf : PdfDocument)
    (henc : pdf.encrypted = false) (hpages : pdf.pages.length ≠ 0)
    (hnonws : pyStrip (concat_pages pdf.pages) ≠ "")
    (hic : is_resume_content (concat_pages pdf.pages) = false) :
    extract_text_from_pdf pdf =
      (false, "This doesn\x27t appear to be a resume. Please upload a valid resume document.") := by
  rw [extract_text_from_pdf, if_neg (by simp [henc]), if_neg hpages]
  dsimp only
  rw [if_neg hnonws, hic]
  rfl

/-- C6: extracted text (non-whitespace, from an unencrypted document with
pages) containing fewer than 3 distinct vocabulary keywords always fails
extraction with the not-a-resume outcome, whatever its length. -/
theorem c6_few_keywords_not_resume (pdf : PdfDocument)
    (henc : pdf.encrypted = false) (hpages : pdf.pages.length ≠ 0)
    (hnonws : pyStrip (concat_pages pdf.pages) ≠ "")
    (hkw : keyword_count (concat_pages pdf.pages) < 3) :
    extract_text_from_pdf pdf =
      (false, "This doesn\x27t appear to be a resume. Please upload a valid resume document.") := by
  apply extract_fails_not_resume pdf henc hpages hnonws
  rw [is_resume_content]
  by_cases hc : concat_pages pdf.pages = "" ∨ (pyStrip (concat_pages pdf.pages)).length < 100
  · rw [if_pos hc]
  · rw [if_neg hc]
    exact decide_eq_false (by omega)

theorem c6_witness :
    extract_text_from_pdf gibberish_pdf =
      (false, "This doesn\x27t appear to be a resume. Please upload a valid resume document.") :=
  c6_few_keywords_not_resume gibberish_pdf (by decide) (by decide) (by decide) (by decide)

/-- C9: any text whose stripped length is under 100 characters is classified
as not a resume — even with 3 or more distinct keywords — and extraction of
such text fails with the not-a-resume outcome. -/
theorem c9_short_text_never_resume (pdf : PdfDocument)
    (henc : pdf.encrypted = false) (hpages : pdf.pages.length ≠ 0)
    (hnonws : pyStrip (concat_pages pdf.pages) ≠ "")
    (hshort : (pyStrip (concat_pages pdf.pages)).length < 100) :
    is_resume_content (concat_pages pdf.pages) = false ∧
    extract_text_from_pdf pdf =
      (false, "This doesn\x27t appear to be a resume. Please upload a valid resume document.") := by
  have hic : is_resume_content (concat_pages pdf.pages) = false := by
    rw [is_resume_content, if_pos (Or.inr hshort)]
  exact ⟨hic, extract_fails_not_resume pdf henc hpages hnonws hic⟩

theorem c9_witness :
    3 ≤ keyword_count (concat_pages short_resume_pdf.pages) ∧
    extract_text_from_pdf short_resume_pdf =
      (false, "This doesn\x27t appear to be a resume. Please upload a valid resume document.") :=
  ⟨by decide,
   (c9_short_text_never_resume short_resume_pdf (by decide) (by decide) (by decide)
     (by decide)).2⟩

/-! ## C5: characters that survive the cleaning pipeline -/

theorem mem_dropWhile (p : Char → Bool) (c : Char) (hp : p c = false) :
    ∀ (l : List Char), c ∈ l → c ∈ l.dropWhile p := by
  intro l
  induction l with
  | nil => intro h; exact absurd h (List.not_mem_nil c)
  | cons a t ih =>
    intro h
    rw [List.dropWhile]
    cases ha : p a with
    | true =>
      apply ih
      rcases List.mem_cons.mp h with rfl | h1
      · rw [ha] at hp; exact absurd hp (by simp)
      · exact h1
    | false => simpa using h

theorem mem_pyStripL (c : Char) (hws : c.isWhitespace = false) (l : List Char) (h : c ∈ l) :
    c ∈ pyStripL l := by
  rw [pyStripL, List.mem_reverse]
  apply mem_dropWhile _ _ hws
  rw [List.mem_reverse]
  exact mem_dropWhile _ _ hws _ h

theorem splitNl_ne_nil : ∀ (l : List Char), splitNl l ≠ [] := by
  intro l
  cases l with
  | nil => simp [splitNl]
  | cons a t =>
    rw [splitNl]
    cases hs : splitNl t with
    | nil => simp
    | cons x xs => by_cases ha : a = '\n' <;> simp [ha]

theorem mem_splitNl (c : Char) (hc : c ≠ '\n') : ∀ (l : List Char), c ∈ l →
    ∃ line ∈ splitNl l, c ∈ line := by
  intro l
  induction l with
  | nil => intro h; exact absurd h (List.not_mem_nil c)
  | cons a t ih =>
    intro h
    cases hs : splitNl t with
    | nil => exact absurd hs (splitNl_ne_nil t)
    | cons x xs =>
      have he : splitNl (a :: t) =
          if a = '\n' then [] :: x :: xs else (a :: x) :: xs := by
        rw [splitNl, hs]
      rw [he]
      by_cases ha : a = '\n'
      · rw [if_pos ha]
        rcases List.mem_cons.mp h with rfl | h1
        · exact absurd ha hc
        · obtain ⟨line, hl, hcl⟩ := ih h1
          rw [hs] at hl
          exact ⟨line, List.mem_cons_of_mem _ hl, hcl⟩
      · rw [if_neg ha]
        rcases List.mem_cons.mp h with rfl | h1
        · exact ⟨c :: x, List.mem_cons_self _ _, List.mem_cons_self _ _⟩
        · obtain ⟨line, hl, hcl⟩ := ih h1
          rw [hs] at hl
          rcases List.mem_cons.mp hl with rfl | hl2
          · exact ⟨a :: line, List.mem_cons_self _ _, List.mem_cons_of_mem _ hcl⟩
          · exact ⟨line, List.mem_cons_of_mem _ hl2, hcl⟩

theorem mem_joinSep (sep : List Char) (c : Char) :
    ∀ (lines : List (List Char)) (line : List Char),
    line ∈ lines → c ∈ line → c ∈ joinSep sep lines := by
  intro lines
  induction lines with
  | nil => intro line h _; exact absurd h (List.not_mem_nil line)
  | cons x xs ih =>
    intro line h hcl
    cases xs with
    | nil =>
      have hx : line = x := List.mem_singleton.mp h
      subst hx
      exact hcl
    | cons y ys =>
      have hu : joinSep sep (x :: y :: ys) = x ++ sep ++ joinSep sep (y :: ys) := rfl
      rw [hu]
      rcases List.mem_cons.mp h with rfl | h2
      · simp [hcl]
      · simp [ih _ h2 hcl]

theorem mem_replaceGo (pat : List Char) (c : Char) (hc : c ∉ pat) :
    ∀ (fuel : Nat) (s : List Char), c ∈ s → c ∈ replaceGo pat fuel s := by
  intro fuel
  induction fuel with
  | zero =>
    intro s h
    cases s with
    | nil => simp at h
    | cons a t => exact h
  | succ f ih =>
    intro s h
    cases s with
    | nil => simp at h
    | cons a t =>
      rw [replaceGo]
      split
      · rename_i hcond
        apply ih
        obtain ⟨u, hu⟩ := (leadsWith_iff pat (a :: t)).mp hcond.2
        have hdrop : (a :: t).drop pat.length = u := by
          rw [hu, List.drop_left]
        rw [hdrop]
        rw [hu] at h
        rcases List.mem_append.mp h with h1 | h1
        · exact absurd h1 hc
        · exact h1
      · rcases List.mem_cons.mp h with rfl | h1
        · exact List.mem_cons_self _ _
        · exact List.mem_cons_of_mem _ (ih t h1)

theorem mem_artifact_fold (c : Char) : ∀ (arts : List String) (acc : List Char),
    (∀ a ∈ arts, c ∉ a.data) → c ∈ acc →
    c ∈ arts.foldl (fun acc artifact => replaceList artifact.data acc) acc := by
  intro arts
  induction arts with
  | nil => intro acc _ h; simpa using h
  | cons a as ih =>
    intro acc hna h
    rw [List.foldl_cons]
    apply ih
    · intro x hx; exact hna x (List.mem_cons_of_mem _ hx)
    · exact mem_replaceGo a.data c (hna a (List.mem_cons_self _ _)) _ _ h

theorem mem_mk_data (l : List Char) (c : Char) (h : c ∈ l) : c ∈ (String.mk l).data := h

/-- A non-whitespace character outside the artifact alphabet survives
`_clean_text`. -/
theorem mem_clean_text (text : String) (c : Char) (hws : c.isWhitespace = false)
    (hart : c ∉ artifact_chars) (hmem : c ∈ text.data) :
    c ∈ (clean_text text).data := by
  have htne : text ≠ "" := by
    rw [Ne, string_eq_iff_data]
    intro h
    rw [h] at hmem
    simp at hmem
  have key : c ∈ pdf_artifacts.foldl (fun acc artifact => replaceList artifact.data acc)
      (joinSep ['\n'] (((splitNl text.data).map pyStripL).filter (fun l => l ≠ []))) := by
    apply mem_artifact_fold
    · intro a ha hcin
      apply hart
      rw [show artifact_chars = (pdf_artifacts.map String.data).flatten from rfl,
        List.mem_flatten]
      exact ⟨a.data, List.mem_map_of_mem _ ha, hcin⟩
    · have hcnl : c ≠ '\n' := by
        intro h0
        rw [h0] at hws
        exact absurd hws (by decide)
      obtain ⟨line, hl, hcl⟩ := mem_splitNl c hcnl text.data hmem
      have hstr : c ∈ pyStripL line := mem_pyStripL c hws line hcl
      have hsl : pyStripL line ∈
          ((splitNl text.data).map pyStripL).filter (fun l => l ≠ []) := by
        rw [List.mem_filter]
        refine ⟨List.mem_map_of_mem _ hl, ?_⟩
        have hne : pyStripL line ≠ [] := by
          intro h0
          rw [h0] at hstr
          simp at hstr
        exact decide_eq_true hne
      exact mem_joinSep ['\n'] c _ (pyStripL line) hsl hstr
  rw [clean_text, if_neg htne]
  exact mem_mk_data _ c key

theorem toLower_ws_fixed (c : Char) (h : c.isWhitespace = true) : c.toLower = c := by
  simp [Char.isWhitespace] at h
  rcases h with ((h | h) | h) | h <;> subst h <;> decide

theorem artifact_toLower_fixed : ∀ a ∈ artifact_chars, a.toLower = a := by decide

/-- Every vocabulary keyword contains at least one character that survives
cleaning. -/
theorem keywords_have_safe : ∀ kw ∈ RESUME_KEYWORDS, ∃ g ∈ kw.data, safeChar g = true := by
  decide

theorem keyword_exists (t : String) (h : 3 ≤ keyword_count t) :
    ∃ kw ∈ RESUME_KEYWORDS, pyIn kw (pyLower t) = true := by
  rw [keyword_count] at h
  have hne : RESUME_KEYWORDS.filter (fun keyword => pyIn keyword (pyLower t)) ≠ [] := by
    intro h0
    rw [h0] at h
    simp at h
  obtain ⟨kw, hkw⟩ := List.exists_mem_of_ne_nil _ hne
  rw [List.mem_filter] at hkw
  exact ⟨kw, hkw.1, hkw.2⟩

/-- C5: whenever extraction succeeds, the normalized text it returns is
neither empty nor purely whitespace — the invariant survives the cleaning
step that runs after the emptiness check. -/
theorem c5_extract_ok_nonempty (pdf : PdfDocument) (t : String)
    (hok : extract_text_from_pdf pdf = (true, t)) :
    t ≠ "" ∧ pyStrip t ≠ "" := by
  rw [extract_text_from_pdf] at hok
  by_cases h1 : pdf.encrypted = true
  · rw [if_pos h1] at hok
    exact absurd (congrArg Prod.fst hok) (by simp)
  rw [if_neg h1] at hok
  by_cases h2 : pdf.pages.length = 0
  · rw [if_pos h2] at hok
    exact absurd (congrArg Prod.fst hok) (by simp)
  rw [if_neg h2] at hok
  dsimp only at hok
  by_cases h3 : pyStrip (concat_pages pdf.pages) = ""
  · rw [if_pos h3] at hok
    exact absurd (congrArg Prod.fst hok) (by simp)
  rw [if_neg h3] at hok
  by_cases h4 : is_resume_content (concat_pages pdf.pages) = true
  case neg =>
    have h4' : is_resume_content (concat_pages pdf.pages) = false := by
      cases hb : is_resume_content (concat_pages pdf.pages)
      · rfl
      · exact absurd hb h4
    rw [h4'] at hok
    exact absurd (congrArg Prod.fst hok) (by simp)
  rw [h4] at hok
  have ht : clean_text (concat_pages pdf.pages) = t := by
    have := congrArg Prod.snd hok
    simpa using this
  have hkc : 3 ≤ keyword_count (concat_pages pdf.pages) := by
    rw [is_resume_content] at h4
    by_cases hc : concat_pages pdf.pages = "" ∨
        (pyStrip (concat_pages pdf.pages)).length < 100
    · rw [if_pos hc] at h4
      exact absurd h4 (by simp)
    · rw [if_neg hc] at h4
      exact of_decide_eq_true h4
  obtain ⟨kw, hkwmem, hkwin⟩ := keyword_exists _ hkc
  obtain ⟨g, hg, hgsafe⟩ := keywords_have_safe kw hkwmem
  have hgprops : g.isWhitespace = false ∧ g ∉ artifact_chars := by
    rw [safeChar, Bool.and_eq_true, Bool.not_eq_true', Bool.not_eq_true'] at hgsafe
    exact ⟨hgsafe.1, of_decide_eq_false hgsafe.2⟩
  have hsub : substringOf kw.data (pyLower (concat_pages pdf.pages)).data :=
    (containsSub_iff _ _).mp hkwin
  have hgmem : g ∈ (concat_pages pdf.pages).data.map Char.toLower :=
    mem_of_substringOf _ _ g hsub hg
  rw [List.mem_map] at hgmem
  obtain ⟨c₀, hc₀mem, hc₀low⟩ := hgmem
  have hc₀ws : c₀.isWhitespace = false := by
    cases hb : c₀.isWhitespace
    · rfl
    · have hfix := toLower_ws_fixed c₀ hb
      rw [hc₀low] at hfix
      rw [← hfix] at hb
      rw [hgprops.1] at hb
      exact absurd hb (by simp)
  have hc₀art : c₀ ∉ artifact_chars := by
    intro hmem'
    have hfix := artifact_toLower_fixed c₀ hmem'
    rw [hc₀low] at hfix
    rw [← hfix] at hmem'
    exact hgprops.2 hmem'
  have hclean : c₀ ∈ (clean_text (concat_pages pdf.pages)).data :=
    mem_clean_text _ c₀ hc₀ws hc₀art hc₀mem
  rw [ht] at hclean
  constructor
  · rw [Ne, string_eq_iff_data]
    intro h0
    rw [h0] at hclean
    simp at hclean
  · rw [Ne, string_eq_iff_data]
    intro h0
    have hmem2 : c₀ ∈ pyStripL t.data := mem_pyStripL c₀ hc₀ws _ hclean
    rw [show (pyStrip t).data = pyStripL t.data from rfl,
      show ("" : String).data = [] from rfl] at h0
    rw [h0] at hmem2
    simp at hmem2

set_option maxRecDepth 8000 in
theorem c5_witness :
    extract_text_from_pdf full_resume_pdf = (true, full_resume_page) ∧
    (full_resume_page ≠ "" ∧ pyStrip full_resume_page ≠ "") :=
  ⟨by decide, c5_extract_ok_nonempty full_resume_pdf full_resume_page (by decide)⟩

/-! ## C10: the blank-line formatter -/

theorem mk_data_eq (l : List Char) : (String.mk l).data = l := rfl

theorem sbr_chain (l : List (List Char)) : ∀ (prev : Bool),
    List.Chain' (fun a b => (pyStripL a).isEmpty = false ∨ (pyStripL b).isEmpty = false)
      (strip_blank_runs prev l) ∧
    (prev = true → ∀ x, (strip_blank_runs prev l).head? = some x →
      (pyStripL x).isEmpty = false) := by
  induction l with
  | nil =>
    intro prev
    constructor
    · simp [strip_blank_runs]
    · intro _ x hx
      simp [strip_blank_runs] at hx
  | cons line rest ih =>
    intro prev
    rw [strip_blank_runs]
    by_cases hb : ((pyStripL line).isEmpty && prev) = true
    · rw [if_pos hb]
      rcases Bool.and_eq_true_iff.mp hb with ⟨hbl, hprev⟩
      exact ⟨(ih (pyStripL line).isEmpty).1,
        fun _ x hx => (ih (pyStripL line).isEmpty).2 hbl x hx⟩
    · rw [if_neg hb]
      have hb' : (pyStripL line).isEmpty = false ∨ prev = false := by
        cases h1 : (pyStripL line).isEmpty
        · exact Or.inl rfl
        · cases h2 : prev
          · exact Or.inr rfl
          · rw [h1, h2] at hb; exact absurd rfl hb
      constructor
      · rw [List.chain'_cons']
        refine ⟨?_, (ih (pyStripL line).isEmpty).1⟩
        intro y hy
        cases h1 : (pyStripL line).isEmpty with
        | false => exact Or.inl rfl
        | true =>
          right
          rw [h1] at hy
          exact (ih true).2 rfl y (Option.mem_def.mp hy)
      · intro hprev x hx
        have hx' : x = line := by
          rw [List.head?_cons] at hx
          exact (Option.some.injEq _ _ ▸ hx).symm ▸ rfl
        subst hx'
        rcases hb' with h1 | h1
        · exact h1
        · rw [hprev] at h1; exact absurd h1 (by simp)

theorem sbr_fix (l : List (List Char)) : ∀ (prev : Bool),
    List.Chain' (fun a b => (pyStripL a).isEmpty = false ∨ (pyStripL b).isEmpty = false) l →
    (prev = true → ∀ x, l.head? = some x → (pyStripL x).isEmpty = false) →
    strip_blank_runs prev l = l := by
  induction l with
  | nil => intro prev _ _; rfl
  | cons line rest ih =>
    intro prev hchain hhead
    have hcond : ((pyStripL line).isEmpty && prev) = false := by
      cases h2 : prev
      · simp
      · have hline := hhead h2 line (by rw [List.head?_cons])
        rw [hline]
        simp
    rw [strip_blank_runs, if_neg (by rw [hcond]; simp)]
    rw [List.chain'_cons'] at hchain
    congr 1
    apply ih
    · exact hchain.2
    · intro hbl x hx
      rcases hchain.1 x hx with h1 | h1
      · rw [hbl] at h1; exact absurd h1 (by simp)
      · exact h1

theorem sbr_subset (l : List (List Char)) : ∀ (prev : Bool) (x : List Char),
    x ∈ strip_blank_runs prev l → x ∈ l := by
  induction l with
  | nil => intro prev x hx; rw [strip_blank_runs] at hx; exact absurd hx (List.not_mem_nil x)
  | cons line rest ih =>
    intro prev x hx
    rw [strip_blank_runs] at hx
    by_cases hb : ((pyStripL line).isEmpty && prev) = true
    · rw [if_pos hb] at hx
      exact List.mem_cons_of_mem _ (ih _ x hx)
    · rw [if_neg hb] at hx
      rcases List.mem_cons.mp hx with rfl | h1
      · exact List.mem_cons_self _ _
      · exact List.mem_cons_of_mem _ (ih _ x h1)

theorem sbr_cons_false_ne_nil (line : List Char) (rest : List (List Char)) :
    strip_blank_runs false (line :: rest) ≠ [] := by
  rw [strip_blank_runs]
  rw [if_neg (by simp)]
  simp

theorem no_nl_splitNl : ∀ (l : List Char) (x : List Char), x ∈ splitNl l → '\n' ∉ x := by
  intro l
  induction l with
  | nil =>
    intro x hx
    rw [splitNl, List.mem_singleton] at hx
    subst hx
    exact List.not_mem_nil _
  | cons a t ih =>
    intro x hx
    cases hs : splitNl t with
    | nil => exact absurd hs (splitNl_ne_nil t)
    | cons y ys =>
      have he : splitNl (a :: t) =
          if a = '\n' then [] :: y :: ys else (a :: y) :: ys := by
        rw [splitNl, hs]
      rw [he] at hx
      by_cases ha : a = '\n'
      · rw [if_pos ha] at hx
        rcases List.mem_cons.mp hx with rfl | h1
        · exact List.not_mem_nil _
        · exact ih x (by rw [hs]; exact h1)
      · rw [if_neg ha] at hx
        rcases List.mem_cons.mp hx with rfl | h1
        · intro hmem
          rcases List.mem_cons.mp hmem with h2 | h2
          · exact ha h2.symm
          · exact ih y (by rw [hs]; exact List.mem_cons_self _ _) h2
        · exact ih x (by rw [hs]; exact List.mem_cons_of_mem _ h1)

theorem splitNl_append : ∀ (a s hd : List Char) (tl : List (List Char)), '\n' ∉ a →
    splitNl s = hd :: tl → splitNl (a ++ s) = (a ++ hd) :: tl := by
  intro a
  induction a with
  | nil => intro s hd tl _ hs; simpa using hs
  | cons c a' ih =>
    intro s hd tl hnl hs
    have hc : c ≠ '\n' := fun h => hnl (h ▸ List.mem_cons_self _ _)
    have hrec : splitNl (a' ++ s) = (a' ++ hd) :: tl :=
      ih s hd tl (fun h => hnl (List.mem_cons_of_mem _ h)) hs
    have he : splitNl (c :: (a' ++ s)) =
        if c = '\n' then [] :: (a' ++ hd) :: tl else (c :: (a' ++ hd)) :: tl := by
      rw [splitNl, hrec]
    rw [List.cons_append, he, if_neg hc]
    simp

theorem splitNl_cons_nl (r : List Char) : splitNl ('\n' :: r) = [] :: splitNl r := by
  cases hs : splitNl r with
  | nil => exact absurd hs (splitNl_ne_nil r)
  | cons y ys =>
    have he : splitNl ('\n' :: r) =
        if '\n' = '\n' then [] :: y :: ys else ('\n' :: y) :: ys := by
      rw [splitNl, hs]
    rw [he, if_pos rfl]

theorem splitNl_joinSep : ∀ (ls : List (List Char)), ls ≠ [] →
    (∀ x ∈ ls, '\n' ∉ x) → splitNl (joinSep ['\n'] ls) = ls := by
  intro ls
  induction ls with
  | nil => intro h _; exact absurd rfl h
  | cons x xs ih =>
    intro _ hnl
    cases xs with
    | nil =>
      have hx : '\n' ∉ x := hnl x (List.mem_cons_self _ _)
      have h1 : splitNl (x ++ ([] : List Char)) = (x ++ []) :: [] :=
        splitNl_append x [] [] [] hx rfl
      rw [List.append_nil] at h1
      exact h1
    | cons y ys =>
      have hu : joinSep ['\n'] (x :: y :: ys) =
          x ++ ('\n' :: joinSep ['\n'] (y :: ys)) := by
        have : joinSep ['\n'] (x :: y :: ys) = x ++ ['\n'] ++ joinSep ['\n'] (y :: ys) := rfl
        rw [this, List.append_assoc]
        rfl
      rw [hu]
      have hrec : splitNl (joinSep ['\n'] (y :: ys)) = y :: ys :=
        ih (by simp) (fun z hz => hnl z (List.mem_cons_of_mem _ hz))
      have h2 : splitNl ('\n' :: joinSep ['\n'] (y :: ys)) = [] :: y :: ys := by
        rw [splitNl_cons_nl, hrec]
      have h3 := splitNl_append x ('\n' :: joinSep ['\n'] (y :: ys)) [] (y :: ys)
        (hnl x (List.mem_cons_self _ _)) h2
      rw [List.append_nil] at h3
      exact h3

/-- C10: `format_latex_code` leaves no two consecutive blank lines in its
output, and it is idempotent — applied to its own output it returns that
output unchanged. -/
theorem c10_format_latex_idempotent (latex_code : String) :
    List.Chain' (fun a b => (pyStripL a).isEmpty = false ∨ (pyStripL b).isEmpty = false)
      (splitNl (format_latex_code latex_code).data) ∧
    format_latex_code (format_latex_code latex_code) = format_latex_code latex_code := by
  have hdata : (format_latex_code latex_code).data =
      joinSep ['\n'] (strip_blank_runs false (splitNl latex_code.data)) := by
    rw [format_latex_code, mk_data_eq]
  have hout_ne : strip_blank_runs false (splitNl latex_code.data) ≠ [] := by
    cases hs : splitNl latex_code.data with
    | nil => exact absurd hs (splitNl_ne_nil _)
    | cons x xs => exact sbr_cons_false_ne_nil x xs
  have hnl : ∀ x ∈ strip_blank_runs false (splitNl latex_code.data), '\n' ∉ x :=
    fun x hx => no_nl_splitNl _ x (sbr_subset _ _ x hx)
  have hrt : splitNl (format_latex_code latex_code).data =
      strip_blank_runs false (splitNl latex_code.data) := by
    rw [hdata]
    exact splitNl_joinSep _ hout_ne hnl
  constructor
  · rw [hrt]
    exact (sbr_chain _ false).1
  · rw [string_eq_iff_data]
    rw [show (format_latex_code (format_latex_code latex_code)).data =
      joinSep ['\n']
        (strip_blank_runs false (splitNl (format_latex_code latex_code).data)) from
      by rw [format_latex_code, mk_data_eq]]
    rw [hrt]
    rw [sbr_fix _ false (sbr_chain _ false).1 (fun h0 => nomatch h0)]
    rw [hdata]

end ResuMatch
